import Mathlib

/-
Verification of the backend request-handling core: the validate-then-execute
pipeline (src/backend/src/middleware/crud.ts), the response envelope helpers
and the error middleware (same module), and the database gateway
(src/unnamed/part_000: getPool, dbRequest, transaction helpers).

The TypeScript source is shallowly embedded: JS values are modelled by the
inductive `JsValue`, JS objects by association lists with object-spread
semantics (`objSet`, `jsSpread`), throwing code by `Except`, and the
process-wide pool state by explicit state passing.
-/

set_option autoImplicit false

namespace Backend

/-- A JS scalar value as it occurs in request params, query, body and DB
records: string, integer number, boolean, or null. -/
inductive JsValue where
  | str (s : String)
  | num (n : Int)
  | boolean (b : Bool)
  | null
  deriving DecidableEq, Repr

/-- A JS object modelled as an association list (insertion order kept,
keys looked up front to back as built by `objSet`). -/
abbrev JsObj := List (String × JsValue)

/-- Property read `o[k]`: first entry with the key, as in a JS object where
`objSet` keeps keys unique. -/
def objGet (o : JsObj) (k : String) : Option JsValue :=
  o.lookup k

/-- Property write `o[k] = v` on a JS object: replaces the value of an
existing key in place, otherwise appends the new key at the end. -/
def objSet : JsObj → String → JsValue → JsObj
  | [], k, v => [(k, v)]
  | (k', v') :: rest, k, v =>
      if k' = k then (k, v) :: rest else (k', v') :: objSet rest k v

/-- Object spread `\x7b...a, ...b\x7d`: start from `a` and write every entry of
`b` over it in order, so entries of `b` override entries of `a` on key
collision (later writes win). -/
def jsSpread (a b : JsObj) : JsObj :=
  b.foldl (fun acc kv => objSet acc kv.1 kv.2) a

/-- An express-style request: path params, query params and body, each a
JS object. -/
structure RequestModel where
  params : JsObj
  query : JsObj
  body : JsObj
  deriving Repr

/-- One zod issue (an element of `ZodError.errors`): a field path and a
message. -/
structure FieldViolation where
  path : List String
  message : String
  deriving DecidableEq, Repr

/-- A caller-supplied zod schema: parsing the merged input object either
yields a validated value or throws a `ZodError` carrying its list of field
violations.  `parseAsync` is modelled by this total function into `Except`
(the throw is the `error` branch). -/
structure Schema (α : Type) where
  parse : JsObj → Except (List FieldViolation) α

/-- The stubbed auth credential from `CrudController.validate`
(crud.ts lines 122-125). -/
structure Credential where
  idAccount : Int
  idUser : Int
  deriving DecidableEq, Repr

/-- `ValidationResult` from crud.ts: credential plus validated params. -/
structure ValidationResult (α : Type) where
  credential : Credential
  params : α
  deriving DecidableEq, Repr

/-- The error value built in the catch branch of `CrudController.validate`
(crud.ts lines 133-138). -/
structure ValidationErrorDetail where
  statusCode : Nat
  code : String
  message : String
  details : List FieldViolation
  deriving DecidableEq, Repr

/-- `SecurityConfig` from crud.ts. -/
structure SecurityConfig where
  securable : String
  permission : String
  deriving DecidableEq, Repr

/-- `CrudController` from crud.ts: holds the per-controller security
configuration (declared but never consulted by `validate`). -/
structure CrudController where
  securityConfig : List SecurityConfig

/-- The merged flat input of `CrudController.validate` line 117:
`\x7b ...req.params, ...req.query, ...req.body \x7d`. -/
def mergedInput (req : RequestModel) : JsObj :=
  jsSpread (jsSpread req.params req.query) req.body

/-- `CrudController.validate` (crud.ts lines 111-141): merge the inputs,
run the schema, and return the two-slot tuple
`[ValidationResult | null, error | null]`.  The schema throw is caught and
converted to the structured 400 error; `operation` is accepted but unused,
as in the source. -/
def CrudController.validate {α : Type} (_self : CrudController)
    (req : RequestModel) (schema : Schema α) (_operation : String) :
    Option (ValidationResult α) × Option ValidationErrorDetail :=
  match schema.parse (mergedInput req) with
  | .ok validated =>
      (some ⟨⟨1, 1⟩, validated⟩, none)
  | .error errs =>
      (none, some ⟨400, "VALIDATION_ERROR", "Validation failed", errs⟩)

/-- `CrudController.create` (crud.ts line 58). -/
def CrudController.create {α : Type} (self : CrudController)
    (req : RequestModel) (schema : Schema α) :
    Option (ValidationResult α) × Option ValidationErrorDetail :=
  self.validate req schema "CREATE"

/-- `CrudController.read` (crud.ts line 71). -/
def CrudController.read {α : Type} (self : CrudController)
    (req : RequestModel) (schema : Schema α) :
    Option (ValidationResult α) × Option ValidationErrorDetail :=
  self.validate req schema "READ"

/-- `CrudController.update` (crud.ts line 84). -/
def CrudController.update {α : Type} (self : CrudController)
    (req : RequestModel) (schema : Schema α) :
    Option (ValidationResult α) × Option ValidationErrorDetail :=
  self.validate req schema "UPDATE"

/-- `CrudController.delete` (crud.ts line 97). -/
def CrudController.delete {α : Type} (self : CrudController)
    (req : RequestModel) (schema : Schema α) :
    Option (ValidationResult α) × Option ValidationErrorDetail :=
  self.validate req schema "DELETE"

/-! ## Database gateway (src/unnamed/part_000) -/

/-- `ExpectedReturn` enum (part_000 lines 15-19). -/
inductive ExpectedReturn where
  | Single
  | Multi
  | None
  deriving DecidableEq, Repr

/-- A database record returned by the driver: a JS object. -/
abbrev Record := JsObj

/-- A live driver connection pool instance (`sql.ConnectionPool`),
distinguished by the connect attempt that created it. -/
structure PoolConn where
  id : Nat
  deriving DecidableEq, Repr

/-- The process-wide mutable state around the module-level `pool` variable
(part_000 line 25): the current pool (null at start) plus a count of how
many driver connect attempts (`sql.connect`) have been initiated. -/
structure PoolState where
  pool : Option PoolConn
  connectCount : Nat
  deriving DecidableEq, Repr

/-- `getPool` (part_000 lines 38-43): return the existing pool, or connect
once and cache the result.  `connect` stands for `sql.connect(config.database)`
succeeding with a fresh driver pool; each call to it bumps `connectCount`.
A failing connect (which in the source leaves `pool` null so that a later
call may retry) is outside the claims modelled here. -/
def getPool (connect : Nat → PoolConn) (s : PoolState) : PoolConn × PoolState :=
  match s.pool with
  | some p => (p, s)
  | none =>
      let p := connect s.connectCount
      (p, ⟨some p, s.connectCount + 1⟩)

/-- An error thrown by the driver or by JS evaluation, as seen by a
`catch (error: any)` clause: we track its `message`. -/
structure JsError where
  message : String
  deriving DecidableEq, Repr

/-- The raw driver result of `request.execute(routine)`: the ordered list
of result sets, each a list of records. -/
structure DriverResult where
  recordsets : List (List Record)
  deriving DecidableEq, Repr

/-- mssql `result.recordset`: the first result set, undefined when the
routine returned no result set at all. -/
def DriverResult.recordset (r : DriverResult) : Option (List Record) :=
  r.recordsets.head?

/-- The state of a driver-level transaction scope.  Modelled from the spec:
the mssql `Transaction` object's internal lifecycle is not under src/
(part_000 only wraps it); spec sections 3 and 4.1 specify it as
state = enum Active/Committed/RolledBack with exactly one of
commit/rollback terminating an Active scope. -/
inductive TxState where
  | Active
  | Committed
  | RolledBack
  deriving DecidableEq, Repr

/-- `TransactionScope` (spec section 3): a transaction with its lifecycle
state. -/
structure TransactionScope where
  state : TxState
  deriving DecidableEq, Repr

/-- `InvalidStateError` (spec section 7): misuse of the transaction
lifecycle. -/
structure InvalidStateError where
  message : String
  deriving DecidableEq, Repr

/-- Modelled from the spec: driver-level `Transaction.commit` — not under
src/ — terminates an Active scope into Committed and fails loudly on an
already-terminated scope (spec section 4.1). -/
def TransactionScope.commit : TransactionScope → Except InvalidStateError TransactionScope
  | ⟨.Active⟩ => .ok ⟨.Committed⟩
  | ⟨.Committed⟩ => .error ⟨"Transaction has already been committed or rolled back"⟩
  | ⟨.RolledBack⟩ => .error ⟨"Transaction has already been committed or rolled back"⟩

/-- Modelled from the spec: driver-level `Transaction.rollback` — not under
src/ — terminates an Active scope into RolledBack and fails loudly on an
already-terminated scope (spec section 4.1). -/
def TransactionScope.rollback : TransactionScope → Except InvalidStateError TransactionScope
  | ⟨.Active⟩ => .ok ⟨.RolledBack⟩
  | ⟨.Committed⟩ => .error ⟨"Transaction has already been committed or rolled back"⟩
  | ⟨.RolledBack⟩ => .error ⟨"Transaction has already been committed or rolled back"⟩

/-- `commitTransaction` (part_000 lines 144-146): delegates to the driver
transaction's commit. -/
def commitTransaction (transaction : TransactionScope) :
    Except InvalidStateError TransactionScope :=
  transaction.commit

/-- `rollbackTransaction` (part_000 lines 161-163): delegates to the driver
transaction's rollback. -/
def rollbackTransaction (transaction : TransactionScope) :
    Except InvalidStateError TransactionScope :=
  transaction.rollback

/-- `beginTransaction` (part_000 lines 124-129): acquires the pool and
starts a fresh Active scope. -/
def beginTransaction (connect : Nat → PoolConn) (s : PoolState) :
    TransactionScope × PoolState :=
  (⟨.Active⟩, (getPool connect s).2)

/-- The connection a `sql.Request` is scoped to (part_000 line 78): the
supplied transaction when present, else the shared pool. -/
inductive RequestCtx where
  | pool (p : PoolConn)
  | transaction (t : TransactionScope)
  deriving DecidableEq, Repr

/-- The shaped value `dbRequest` resolves with, one per `ExpectedReturn`
arm of the switch (part_000 lines 86-102). -/
inductive DbValue where
  | record (r : Option Record)
  | sets (rs : List (List Record))
  | named (entries : List (String × Option (List Record)))
  | null
  deriving DecidableEq, Repr

/-- The object logged by the catch clause of `dbRequest`
(part_000 lines 104-108): routine name, error message, and the raw
parameter set (unredacted at this layer). -/
structure DbLogEntry where
  routine : String
  errMessage : String
  parameters : JsObj
  deriving DecidableEq, Repr

/-- The switch over `expectedReturn` (part_000 lines 86-102), applied to a
successful driver result.  `Single` reads `result.recordset[0]` — an
undefined `recordset` makes that property read throw, which the
surrounding try/catch then handles; an empty first result set gives
undefined (`none`) without throwing.  `Multi` with a non-empty label list
builds the label-to-result-set object positionally; with no labels (or an
empty label list, which fails the `length > 0` test) it returns the raw
ordered result sets. -/
def shapeResult (expectedReturn : ExpectedReturn)
    (resultSetNames : Option (List String)) (result : DriverResult) :
    Except JsError DbValue :=
  match expectedReturn with
  | .Single =>
      match result.recordset with
      | some rs => .ok (.record (rs.get? 0))
      | none => .error ⟨"Cannot read properties of undefined (reading 0)"⟩
  | .Multi =>
      match resultSetNames with
      | some names =>
          if names.length > 0 then
            .ok (.named (names.enum.map fun p => (p.2, result.recordsets.get? p.1)))
          else
            .ok (.sets result.recordsets)
      | none => .ok (.sets result.recordsets)
  | .None => .ok .null

/-- `dbRequest` (part_000 lines 69-111): acquire the pool, scope a request
to the transaction or the pool, bind every parameter, execute the routine,
and shape the result.  `exec` stands for the driver+server behaviour of
`request.execute(routine)` for a request with the given scope and bound
parameters.  Any throw inside the try block — driver failure or the
`Single` undefined-recordset read — is caught, logged with the routine
name, the error message and the raw parameter set, and rethrown
unchanged. -/
def dbRequest (connect : Nat → PoolConn)
    (exec : RequestCtx → String → JsObj → Except JsError DriverResult)
    (routine : String) (parameters : JsObj) (expectedReturn : ExpectedReturn)
    (transaction : Option TransactionScope)
    (resultSetNames : Option (List String)) (s : PoolState) :
    (Except JsError DbValue × List DbLogEntry) × PoolState :=
  let acquired := getPool connect s
  let ctx := match transaction with
    | some t => RequestCtx.transaction t
    | none => RequestCtx.pool acquired.1
  match (exec ctx routine parameters).bind (shapeResult expectedReturn resultSetNames) with
  | .ok v => ((.ok v, []), acquired.2)
  | .error e => ((.error e, [⟨routine, e.message, parameters⟩]), acquired.2)

/-! ## Response envelope and error middleware
(crud.ts lines 152-178 and the error module, part of the same source file) -/

/-- The `error` object inside an error envelope.  `errorResponse` builds it
without a `code` property (`code = none`); the error middleware always
supplies one. -/
structure ErrorObject where
  code : Option String
  message : String
  details : Option JsValue
  deriving DecidableEq, Repr

/-- The error response envelope: success flag, error object, timestamp. -/
structure ErrorEnvelope where
  success : Bool
  error : ErrorObject
  timestamp : String
  deriving DecidableEq, Repr

/-- The success response envelope. -/
structure SuccessEnvelope where
  success : Bool
  data : JsValue
  timestamp : String
  deriving DecidableEq, Repr

/-- `successResponse` (crud.ts lines 152-158); `now` stands for
`new Date().toISOString()`. -/
def successResponse (data : JsValue) (now : String) : SuccessEnvelope :=
  ⟨true, data, now⟩

/-- `errorResponse` (crud.ts lines 169-178): error object with message and
optional details, and no `code` property. -/
def errorResponse (message : String) (details : Option JsValue) (now : String) :
    ErrorEnvelope :=
  ⟨false, ⟨none, message, details⟩, now⟩

/-- The failure object reaching the error middleware, with the properties
it reads; each may be absent. -/
structure ThrownError where
  statusCode : Option Nat
  code : Option String
  message : Option String
  stack : Option String
  deriving DecidableEq, Repr

/-- JS `a || b` for an optional string: undefined and the empty string are
falsy and select the default. -/
def jsOrString (v : Option String) (dflt : String) : String :=
  match v with
  | some s => if s = "" then dflt else s
  | none => dflt

/-- JS `a || b` for an optional number: undefined and 0 are falsy and
select the default. -/
def jsOrNat (v : Option Nat) (dflt : Nat) : Nat :=
  match v with
  | some n => if n = 0 then dflt else n
  | none => dflt

/-- `errorMiddleware` (error module lines 225-246): derive the HTTP status
(default 500), the code (default INTERNAL_SERVER_ERROR), the message
(default generic), and attach the stack as details only when
`NODE_ENV = development`; respond with the error envelope.  The
`console.error` call does not affect the response and is not modelled. -/
def errorMiddleware (err : ThrownError) (nodeEnv : String) (now : String) :
    Nat × ErrorEnvelope :=
  let statusCode := jsOrNat err.statusCode 500
  let envelope : ErrorEnvelope :=
    ⟨false,
     ⟨some (jsOrString err.code "INTERNAL_SERVER_ERROR"),
      jsOrString err.message "An unexpected error occurred",
      if nodeEnv = "development" then err.stack.map JsValue.str else none⟩,
     now⟩
  (statusCode, envelope)

/-! ## Further definitions used by the verification -/

/-- The numeric value of a decimal digit character, by its code point. -/
def digitVal (c : Char) : Option Nat :=
  let n := c.toNat
  if 48 ≤ n ∧ n ≤ 57 then some (n - 48) else none

/-- Value of a decimal digit string, left to right with an accumulator;
any non-digit character makes the whole string non-numeric. -/
def digitsVal : List Char → Nat → Option Nat
  | [], acc => some acc
  | c :: cs, acc =>
      match digitVal c with
      | some d => digitsVal cs (acc * 10 + d)
      | none => none

/-- JS `Number()` on a string, restricted to integer syntax: an optional
leading minus sign followed by decimal digits; the empty string coerces
to 0; anything else is NaN (no value).  Fractional literals are outside
the value model. -/
def jsStringToNumber (s : String) : Option Int :=
  match s.data with
  | [] => some 0
  | '-' :: c :: cs => (digitsVal (c :: cs) 0).map fun n => -(n : Int)
  | cs => (digitsVal cs 0).map fun n => (n : Int)

/-- JS `Number()` coercion as used by `z.coerce.number()` on our scalar
values: numbers pass through, integer-syntax strings parse, other strings
are NaN (no value), null coerces to 0 and booleans to 0/1. -/
def coerceNumber : JsValue → Option Int
  | .num n => some n
  | .str s => jsStringToNumber s
  | .boolean b => some (if b then 1 else 0)
  | .null => some 0

/-- `zFK` from src/backend/src/utils/zodValidation/index.ts —
`z.coerce.number().int().positive()` — applied to one required field of an
object schema: coerce the field to a number and require it positive (the
`.int()` step always holds for our integer value model). -/
def zFKField (field : String) : Schema Int :=
  ⟨fun obj =>
    match objGet obj field with
    | none => .error [⟨[field], "Required"⟩]
    | some v =>
        match coerceNumber v with
        | none => .error [⟨[field], "Expected number, received nan"⟩]
        | some n =>
            if 0 < n then .ok n
            else .error [⟨[field], "Number must be greater than 0"⟩]⟩

/-- A schema accepting any input with a constant parsed value. -/
def constOkSchema : Schema Nat :=
  ⟨fun _ => .ok 7⟩

/-- A schema rejecting any input with a single field violation. -/
def constFailSchema : Schema Nat :=
  ⟨fun _ => .error [⟨["id"], "Required"⟩]⟩

/-- The overlapping-keys request of the merge-precedence property:
path id 1, query id 2, body id 3 (all as query-style strings). -/
def collisionReq : RequestModel :=
  ⟨[("id", .str "1")], [("id", .str "2")], [("id", .str "3")]⟩

/-- Iterated calls to `getPool` from a given state, collecting the pool
instance each call returned. -/
def getPoolIter (connect : Nat → PoolConn) : Nat → PoolState → List PoolConn × PoolState
  | 0, s => ([], s)
  | n + 1, s =>
      let fst := getPool connect s
      let rest := getPoolIter connect n fst.2
      (fst.1 :: rest.1, rest.2)

/-- Whether an `Except` is in its error branch. -/
def isError {ε α : Type} (x : Except ε α) : Bool :=
  match x with
  | .error _ => true
  | .ok _ => false

/-! ## Lemmas about JS object lookup, write and spread -/

theorem objGet_nil (k : String) : objGet [] k = none := rfl

theorem objGet_cons (k0 : String) (v0 : JsValue) (tl : JsObj) (k : String) :
    objGet ((k0, v0) :: tl) k = if k = k0 then some v0 else objGet tl k := by
  unfold objGet
  cases hbeq : k == k0 with
  | true =>
      have h : k = k0 := by simpa using hbeq
      simp [List.lookup, hbeq, h]
  | false =>
      have h : ¬k = k0 := by simpa using hbeq
      simp [List.lookup, hbeq, h]

theorem objGet_objSet_self (o : JsObj) (k : String) (v : JsValue) :
    objGet (objSet o k v) k = some v := by
  induction o with
  | nil => simp [objSet, objGet_cons]
  | cons hd tl ih =>
      obtain ⟨k', v'⟩ := hd
      by_cases h : k' = k
      · simp [objSet, h, objGet_cons]
      · simp [objSet, h, objGet_cons, Ne.symm h, ih]

theorem objGet_objSet_ne (o : JsObj) (k k' : String) (v : JsValue) (h : k' ≠ k) :
    objGet (objSet o k v) k' = objGet o k' := by
  induction o with
  | nil => simp [objSet, objGet_cons, h]
  | cons hd tl ih =>
      obtain ⟨k0, v0⟩ := hd
      by_cases h0 : k0 = k
      · subst h0
        simp [objSet, objGet_cons, h]
      · simp [objSet, h0, objGet_cons, ih]

theorem objGet_eq_none_of_not_mem (l : JsObj) (k : String)
    (h : k ∉ l.map Prod.fst) : objGet l k = none := by
  induction l with
  | nil => rfl
  | cons hd tl ih =>
      obtain ⟨k0, v0⟩ := hd
      simp only [List.map_cons, List.mem_cons] at h
      push_neg at h
      simp [objGet_cons, h.1, ih h.2]

theorem jsSpread_cons (a : JsObj) (k : String) (v : JsValue) (b : JsObj) :
    jsSpread a ((k, v) :: b) = jsSpread (objSet a k v) b := rfl

theorem objGet_jsSpread (a b : JsObj) (k : String)
    (hb : (b.map Prod.fst).Nodup) :
    objGet (jsSpread a b) k = ((objGet b k).orElse fun _ => objGet a k) := by
  induction b generalizing a with
  | nil => simp [jsSpread, objGet_nil, Option.orElse]
  | cons hd tl ih =>
      obtain ⟨k0, v0⟩ := hd
      simp only [List.map_cons, List.nodup_cons] at hb
      rw [jsSpread_cons, ih _ hb.2]
      by_cases h : k = k0
      · subst h
        rw [objGet_eq_none_of_not_mem tl k hb.1]
        simp [objGet_cons, objGet_objSet_self, Option.orElse]
      · rw [objGet_objSet_ne _ _ _ _ h]
        simp [objGet_cons, h]

/-! ## Other helper lemmas -/

theorem getPoolIter_cached (connect : Nat → PoolConn) (p : PoolConn) (cnt : Nat) :
    ∀ n, getPoolIter connect n ⟨some p, cnt⟩ = (List.replicate n p, ⟨some p, cnt⟩) := by
  intro n
  induction n with
  | zero => rfl
  | succ n ih => simp [getPoolIter, getPool, ih, List.replicate]

theorem jsOrString_ne_empty (v : Option String) (dflt : String) (hd : dflt ≠ "") :
    jsOrString v dflt ≠ "" := by
  unfold jsOrString
  cases v with
  | none => exact hd
  | some s => by_cases h : s = "" <;> simp [h, hd]

/-! ## Claim theorems -/

/-- C1: for every request and schema, each validation entry point
(create/read/update/delete) returns a two-slot tuple with exactly one slot
populated: on schema-valid input it returns the validation result (stub
credential plus validated params) with a null error; on schema-violating
input it returns a null result with the error; never both, never
neither. -/
theorem crud_entry_points_exactly_one_slot {α : Type} (cc : CrudController)
    (req : RequestModel) (schema : Schema α) :
    ∀ r ∈ [cc.create req schema, cc.read req schema, cc.update req schema,
        cc.delete req schema],
      ((∃ v, schema.parse (mergedInput req) = .ok v ∧
          r = (some ⟨⟨1, 1⟩, v⟩, none)) ∨
       (∃ errs, schema.parse (mergedInput req) = .error errs ∧
          r = (none, some ⟨400, "VALIDATION_ERROR", "Validation failed", errs⟩))) ∧
      (r.1.isSome ↔ r.2.isNone) := by
  intro r hr
  simp only [List.mem_cons, List.not_mem_nil, or_false] at hr
  rcases hr with rfl | rfl | rfl | rfl <;>
    cases hp : schema.parse (mergedInput req) with
  | ok v =>
      refine ⟨Or.inl ⟨v, rfl, ?_⟩, ?_⟩ <;>
        simp [CrudController.create, CrudController.read, CrudController.update,
          CrudController.delete, CrudController.validate, hp]
  | error errs =>
      refine ⟨Or.inr ⟨errs, rfl, ?_⟩, ?_⟩ <;>
        simp [CrudController.create, CrudController.read, CrudController.update,
          CrudController.delete, CrudController.validate, hp]

/-- Witness for C1 at a concrete controller, request and schema. -/
theorem crud_entry_points_exactly_one_slot_witness :
    (CrudController.create ⟨[]⟩ ⟨[], [], []⟩ constOkSchema).1.isSome ↔
      (CrudController.create ⟨[]⟩ ⟨[], [], []⟩ constOkSchema).2.isNone :=
  (crud_entry_points_exactly_one_slot ⟨[]⟩ ⟨[], [], []⟩ constOkSchema
    (CrudController.create ⟨[]⟩ ⟨[], [], []⟩ constOkSchema) (by simp)).2

/-- C2: the validation pipeline never raises past its own boundary — in
this embedding `CrudController.validate` is a total function — and every
failure the caller-supplied schema raises during parsing is caught and
converted into the rejected tuple slot carrying statusCode 400, code
VALIDATION_ERROR, message "Validation failed" and the list of field
violations as details. -/
theorem validate_catches_schema_failure {α : Type} (cc : CrudController)
    (req : RequestModel) (schema : Schema α) (operation : String)
    (errs : List FieldViolation)
    (h : schema.parse (mergedInput req) = .error errs) :
    cc.validate req schema operation =
      (none, some ⟨400, "VALIDATION_ERROR", "Validation failed", errs⟩) := by
  simp [CrudController.validate, h]

/-- Witness for C2 at a concrete always-failing schema. -/
theorem validate_catches_schema_failure_witness :
    CrudController.validate ⟨[]⟩ ⟨[], [], []⟩ constFailSchema "CREATE" =
      (none, some ⟨400, "VALIDATION_ERROR", "Validation failed",
        [⟨["id"], "Required"⟩]⟩) :=
  validate_catches_schema_failure ⟨[]⟩ ⟨[], [], []⟩ constFailSchema "CREATE"
    [⟨["id"], "Required"⟩] rfl

/-- C3: the merged flat input resolves key collisions with body over query
over path (later spread sources override earlier ones); concretely, for
path id "1", query id "2", body id "3" under the coercing zFK schema the
validated id is 3. -/
theorem merge_precedence_body_query_path :
    (∀ (path query body : JsObj) (k : String),
        (query.map Prod.fst).Nodup → (body.map Prod.fst).Nodup →
        objGet (mergedInput ⟨path, query, body⟩) k =
          ((objGet body k).orElse fun _ =>
            (objGet query k).orElse fun _ => objGet path k)) ∧
    CrudController.create ⟨[]⟩ collisionReq (zFKField "id") =
      (some ⟨⟨1, 1⟩, 3⟩, none) := by
  constructor
  · intro path query body k hq hb
    unfold mergedInput
    rw [objGet_jsSpread _ _ _ hb, objGet_jsSpread _ _ _ hq]
  · decide

/-- Witness for C3: the merge-precedence equation evaluated at the
concrete colliding inputs gives the body value. -/
theorem merge_precedence_body_query_path_witness :
    objGet (mergedInput ⟨[("id", JsValue.str "1")], [("id", JsValue.str "2")],
        [("id", JsValue.str "3")]⟩) "id" = some (JsValue.str "3") := by
  have h := merge_precedence_body_query_path.1 [("id", JsValue.str "1")]
    [("id", JsValue.str "2")] [("id", JsValue.str "3")] "id" (by decide) (by decide)
  rw [h]
  rfl

/-- C4: `dbRequest` with expected shape Single against a routine whose
first result set contains zero records succeeds with an absent single
result (and logs no error). -/
theorem dbRequest_single_empty_recordset
    (connect : Nat → PoolConn)
    (exec : RequestCtx → String → JsObj → Except JsError DriverResult)
    (routine : String) (parameters : JsObj)
    (transaction : Option TransactionScope) (names : Option (List String))
    (s : PoolState) (r : DriverResult)
    (hexec : ∀ ctx, exec ctx routine parameters = .ok r)
    (hempty : r.recordsets.head? = some []) :
    (dbRequest connect exec routine parameters .Single transaction names s).1 =
      (.ok (.record none), []) := by
  cases transaction <;>
    simp [dbRequest, hexec, shapeResult, DriverResult.recordset, hempty, Except.bind]

/-- Witness for C4: a routine returning one empty result set. -/
theorem dbRequest_single_empty_recordset_witness :
    (dbRequest (fun n => ⟨n⟩) (fun _ _ _ => .ok ⟨[[]]⟩) "[dbo].[spGet]" []
        .Single none none ⟨none, 0⟩).1 = (.ok (.record none), []) :=
  dbRequest_single_empty_recordset _ _ _ _ _ _ _ _ (fun _ => rfl) rfl

/-- C5: `dbRequest` with expected shape Multi and a non-empty label list
succeeds with the labelled mapping in which the label at position i is
paired with the result set at position i; when the routine returns fewer
result sets than labels, each excess label is paired with an absent value
and no failure is raised. -/
theorem dbRequest_multi_labels_positional
    (connect : Nat → PoolConn)
    (exec : RequestCtx → String → JsObj → Except JsError DriverResult)
    (routine : String) (parameters : JsObj)
    (transaction : Option TransactionScope)
    (s : PoolState) (r : DriverResult) (names : List String)
    (hexec : ∀ ctx, exec ctx routine parameters = .ok r)
    (hnonempty : names ≠ []) :
    (dbRequest connect exec routine parameters .Multi transaction (some names) s).1 =
      (.ok (.named (names.enum.map fun p => (p.2, r.recordsets.get? p.1))), []) ∧
    (names.enum.map fun p => (p.2, r.recordsets.get? p.1)).length = names.length ∧
    (∀ i, ∀ hi : i < names.length,
      (names.enum.map fun p => (p.2, r.recordsets.get? p.1)).get? i =
        some (names.get ⟨i, hi⟩, r.recordsets.get? i)) ∧
    (∀ i, ∀ hi : i < names.length, r.recordsets.length ≤ i →
      (names.enum.map fun p => (p.2, r.recordsets.get? p.1)).get? i =
        some (names.get ⟨i, hi⟩, none)) := by
  refine ⟨?_, ?_, ?_, ?_⟩
  · cases transaction <;>
      simp [dbRequest, hexec, shapeResult, Except.bind, List.length_pos.mpr hnonempty]
  · simp [List.enum_length]
  · intro i hi
    simp [List.get?_map, List.get?_enum, List.get?_eq_get hi]
  · intro i hi hM
    simp [List.get?_map, List.get?_enum, List.get?_eq_get hi,
      List.get?_eq_none.mpr hM, List.getElem?_eq_getElem hi, hM]

/-- Witness for C5: two labels against a routine returning one result
set — the first label gets the result set, the excess label gets an
absent value, and the call succeeds. -/
theorem dbRequest_multi_labels_positional_witness :
    (dbRequest (fun n => ⟨n⟩) (fun _ _ _ => .ok ⟨[[[("x", JsValue.num 1)]]]⟩)
        "[dbo].[spList]" [] .Multi none (some ["a", "b"]) ⟨none, 0⟩).1 =
      (.ok (.named [("a", some [[("x", JsValue.num 1)]]), ("b", none)]), []) :=
  (dbRequest_multi_labels_positional (fun n => ⟨n⟩)
    (fun _ _ _ => .ok ⟨[[[("x", JsValue.num 1)]]]⟩) "[dbo].[spList]" [] none
    ⟨none, 0⟩ ⟨[[[("x", JsValue.num 1)]]]⟩ ["a", "b"] (fun _ => rfl)
    (by decide)).1

/-- C6: when the driver-level execution of the routine fails, `dbRequest`
fails, propagating the driver failure (the spec's DatabaseError category),
and attaches the routine name and the raw, unredacted parameter set
together with the failure message to the diagnostic log entry. -/
theorem dbRequest_driver_failure_logged
    (connect : Nat → PoolConn)
    (exec : RequestCtx → String → JsObj → Except JsError DriverResult)
    (routine : String) (parameters : JsObj) (expectedReturn : ExpectedReturn)
    (transaction : Option TransactionScope) (names : Option (List String))
    (s : PoolState) (e : JsError)
    (hexec : ∀ ctx, exec ctx routine parameters = .error e) :
    (dbRequest connect exec routine parameters expectedReturn transaction names s).1 =
      (.error e, [⟨routine, e.message, parameters⟩]) := by
  cases transaction <;> simp [dbRequest, hexec, Except.bind]

/-- Witness for C6: a concrete failing driver call, with the parameter
set reappearing unredacted in the log entry. -/
theorem dbRequest_driver_failure_logged_witness :
    (dbRequest (fun n => ⟨n⟩) (fun _ _ _ => .error ⟨"Timeout expired"⟩)
        "[dbo].[spSave]" [("secret", JsValue.str "hunter2")] .Single none none
        ⟨none, 0⟩).1 =
      (.error ⟨"Timeout expired"⟩,
        [⟨"[dbo].[spSave]", "Timeout expired", [("secret", JsValue.str "hunter2")]⟩]) :=
  dbRequest_driver_failure_logged _ _ _ _ _ _ _ _ _ (fun _ => rfl)

/-- C10: `dbRequest` with expected shape Multi and a present but empty
label list behaves exactly as with no label list: both return the full
ordered unlabeled sequence of result sets (the `length > 0` guard fails),
in every other respect behaving identically as well. -/
theorem dbRequest_multi_empty_labels_eq_none
    (connect : Nat → PoolConn)
    (exec : RequestCtx → String → JsObj → Except JsError DriverResult)
    (routine : String) (parameters : JsObj)
    (transaction : Option TransactionScope) (s : PoolState) :
    dbRequest connect exec routine parameters .Multi transaction (some []) s =
      dbRequest connect exec routine parameters .Multi transaction none s := by
  have hs : shapeResult .Multi (some ([] : List String)) = shapeResult .Multi none := by
    funext r
    simp [shapeResult]
  unfold dbRequest
  rw [hs]

/-- C7: pool acquisition mutates the process-wide pool state exactly once
and is idempotent thereafter: a call on an already-populated state returns
that same pool unchanged without connecting, and any number of calls
starting from the empty state perform exactly one connect and all return
the pool that first connect created. -/
theorem getPool_connects_exactly_once (connect : Nat → PoolConn) (c : Nat) :
    (∀ (p : PoolConn) (cnt : Nat), getPool connect ⟨some p, cnt⟩ = (p, ⟨some p, cnt⟩)) ∧
    (∀ n : Nat, getPoolIter connect (n + 1) ⟨none, c⟩ =
      (List.replicate (n + 1) (connect c), ⟨some (connect c), c + 1⟩)) := by
  constructor
  · intro p cnt
    rfl
  · intro n
    simp [getPoolIter, getPool, getPoolIter_cached, List.replicate]

theorem tx_ok_state (t u : TransactionScope)
    (h : commitTransaction t = .ok u ∨ rollbackTransaction t = .ok u) :
    u.state ≠ TxState.Active := by
  obtain ⟨st⟩ := t
  rcases h with h | h <;> cases st <;>
    simp only [commitTransaction, rollbackTransaction, TransactionScope.commit,
      TransactionScope.rollback] at h <;>
    first
      | (injection h with h2; subst h2; decide)
      | injection h

/-- C8: commit or rollback on an already-terminated transaction scope —
whether it was terminated by a commit or by a rollback — fails with
`InvalidStateError` rather than silently succeeding. -/
theorem terminated_transaction_fails_loudly :
    (∀ t : TransactionScope, t.state ≠ .Active →
      isError (commitTransaction t) = true ∧ isError (rollbackTransaction t) = true) ∧
    (∀ t u : TransactionScope,
      commitTransaction t = .ok u ∨ rollbackTransaction t = .ok u →
      isError (commitTransaction u) = true ∧ isError (rollbackTransaction u) = true) := by
  constructor
  · intro t ht
    obtain ⟨st⟩ := t
    cases st <;> simp_all [commitTransaction, rollbackTransaction,
      TransactionScope.commit, TransactionScope.rollback, isError]
  · intro t u h
    have hu := tx_ok_state t u h
    obtain ⟨su⟩ := u
    cases su <;> simp_all [commitTransaction, rollbackTransaction,
      TransactionScope.commit, TransactionScope.rollback, isError]

/-- Witness for C8: re-terminating a scope that a commit terminated fails
both for commit and for rollback. -/
theorem terminated_transaction_fails_loudly_witness :
    isError (commitTransaction ⟨.Committed⟩) = true ∧
      isError (rollbackTransaction ⟨.Committed⟩) = true :=
  terminated_transaction_fails_loudly.2 ⟨.Active⟩ ⟨.Committed⟩ (Or.inl rfl)

/-- C9 counterexample: the claim says every error envelope carries a code
string, but the `errorResponse` helper builds its error object without any
`code` property. -/
theorem errorResponse_lacks_code :
    (errorResponse "Validation failed" none "2026-01-01T00:00:00.000Z").error.code =
      none := rfl

/-- C9 amended: envelopes from the error middleware always have the shape
success false / error (code, message, optional details) / timestamp with
the code a nonempty string (defaulted to INTERNAL_SERVER_ERROR); the
`errorResponse` helper yields success false / error (message, optional
details) / timestamp with no code property at all. -/
theorem error_envelope_shape :
    (∀ (err : ThrownError) (nodeEnv now : String),
      (errorMiddleware err nodeEnv now).2.success = false ∧
      (errorMiddleware err nodeEnv now).2.timestamp = now ∧
      ∃ c, (errorMiddleware err nodeEnv now).2.error.code = some c ∧ c ≠ "") ∧
    (∀ (message : String) (details : Option JsValue) (now : String),
      errorResponse message details now = ⟨false, ⟨none, message, details⟩, now⟩) := by
  constructor
  · intro err nodeEnv now
    exact ⟨rfl, rfl, jsOrString err.code "INTERNAL_SERVER_ERROR", rfl,
      jsOrString_ne_empty _ _ (by decide)⟩
  · intro message details now
    rfl

end Backend
